import Mathlib

/-!
Verification of `street_view.py` (Pointmatcher/streetview_panorama).

Shallow embedding of the module: the image-concatenation helpers
`get_concat_h` / `get_concat_v` (PIL images modelled as a pair of
dimensions plus a total pixel map, with PIL's `paste` clipping
semantics), the `StreetView` session object with its lazily memoized
`meta_url` / `metadata` properties and the metadata-derived integer
accessors, and the `download` tile loop.

Network and decoding effects are modelled by an explicit environment:
`Env.metaResp k` is the parsed body (or the raised exception) of the
`k`-th metadata HTTP request issued by the session, collapsing
`requests.get` transport failures and `json.loads` parse failures into
one error channel, exactly as both propagate as exceptions from the
`metadata` property.  `Env.tileResp x y` is the decoded tile image (or
the exception) for the tile request with query parameters `x`, `y`,
collapsing transport failures and `PIL.Image.open` decode failures.
Request counting and the list of issued tile requests are threaded
explicitly, so "how many requests were issued" is part of the state.
-/

/-- Python exception kinds that the module can raise.  Some fine-grained
distinctions Python makes (e.g. `TypeError` for `int(None)` versus
`ValueError` for `int("x")`) are collapsed where no behaviour of the
module depends on them. -/
inductive Err where
  | assertionError
  | networkError
  | keyError
  | typeError
  | valueError
  | indexError
  | attributeError
  | imageError
deriving DecidableEq, Repr

/-- Parsed JSON values as produced by `json.loads`.  Numbers are
modelled as integers: the metadata fields the module reads
(`image_width`, `image_height`) are integral, and `panoId` is a
string. -/
inductive Json where
  | null
  | bool (b : Bool)
  | num (n : Int)
  | str (s : String)
  | arr (xs : List Json)
  | dict (kvs : List (String × Json))

/-- The `isinstance(x, dict)` test used by the `metadata` memoization
guard. -/
def Json.isDict : Json → Bool
  | .dict _ => true
  | _ => false

/-- Python `int(x)` coercion on a JSON value: integers are returned
as-is, booleans coerce to 0/1, strings are parsed as decimal integers
(Lean's `String.toInt?`; Python additionally strips whitespace, which no
claim depends on), everything else raises. -/
def Json.toIntCoe : Json → Option Int
  | .num n => some n
  | .bool b => some (if b then 1 else 0)
  | .str s => s.toInt?
  | _ => none

/-- Subscripting `j[k]` with a string key: a `dict` looks the key up
(`KeyError` when absent; duplicate keys cannot arise from `json.loads`),
any other value raises `TypeError`. -/
def Json.index : Json → String → Except Err Json
  | .dict kvs, k =>
    match kvs.lookup k with
    | some v => .ok v
    | none => .error .keyError
  | _, _ => .error .typeError

/-- Subscripting `j[i]` with a non-negative integer index: a list
indexes into its elements (`IndexError` when out of range), any other
value raises (`KeyError` for a dict, `TypeError` otherwise, collapsed). -/
def Json.item : Json → Nat → Except Err Json
  | .arr xs, i =>
    match xs.get? i with
    | some v => .ok v
    | none => .error .indexError
  | _, _ => .error .typeError

/-- An RGB pixel. -/
structure RGB where
  r : Nat
  g : Nat
  b : Nat
deriving DecidableEq, Repr

/-- The black background `Image.new('RGB', ...)` fills with. -/
def rgbBlack : RGB := ⟨0, 0, 0⟩

/-- A PIL image: a width, a height, and a total pixel map (only the
values at coordinates inside the `width × height` rectangle are
meaningful). -/
structure PILImage where
  width : Nat
  height : Nat
  px : Nat → Nat → RGB

/-- `Image.new('RGB', (w, h))`: a `w × h` image filled with black. -/
def imageNew (w h : Nat) : PILImage :=
  ⟨w, h, fun _ _ => rgbBlack⟩

/-- `dst.paste(src, (ox, oy))`: PIL pastes `src` with its top-left
corner at `(ox, oy)`, clipping the pasted region to the bounds of `dst`;
it never raises on a size mismatch. -/
def PILImage.paste (dst src : PILImage) (ox oy : Nat) : PILImage :=
  { dst with
    px := fun x y =>
      if ox ≤ x ∧ x < ox + src.width ∧ oy ≤ y ∧ y < oy + src.height ∧
          x < dst.width ∧ y < dst.height then
        src.px (x - ox) (y - oy)
      else dst.px x y }

/-- `get_concat_h(im1, im2)`: a new `(im1.width + im2.width) ×
im1.height` RGB image with `im1` pasted at `(0, 0)` and `im2` pasted at
`(im1.width, 0)`. -/
def get_concat_h (im1 im2 : PILImage) : PILImage :=
  ((imageNew (im1.width + im2.width) im1.height).paste im1 0 0).paste im2 im1.width 0

/-- `get_concat_v(im1, im2)`: a new `im1.width × (im1.height +
im2.height)` RGB image with `im1` pasted at `(0, 0)` and `im2` pasted at
`(0, im1.height)`. -/
def get_concat_v (im1 im2 : PILImage) : PILImage :=
  ((imageNew im1.width (im1.height + im2.height)).paste im1 0 0).paste im2 0 im1.height

/-- The `StreetView` session object.  `latitude` and `longitude` are
Python floats on which the module performs no arithmetic (they are only
interpolated into the metadata URL); they are carried as integers.
`_metadata = none` models the `None` initial value, `some j` the stored
parse result of `json.loads` (which need not be a dict). -/
structure StreetView where
  latitude : Int
  longitude : Int
  zoom_factor : Int
  _num_columns : Int
  _num_rows : Int
  _metadata : Option Json
  _meta_url : Option String

/-- The effect environment: `metaResp k` is the parsed JSON body of the
`k`-th metadata request the session issues (or the exception raised by
`requests.get` / `json.loads`), `tileResp x y` the decoded image of a
tile request with query parameters `x = column`, `y = row` (or the
exception raised by `requests.get` / `Image.open`). -/
structure Env where
  metaResp : Nat → Except Err Json
  tileResp : Nat → Nat → Except Err PILImage

/-- `StreetView.__init__(latitude, longitude, zoom_factor)`: stores the
coordinates, zeroes the `_num_columns` / `_num_rows` fields, clears both
memoization caches, and asserts `zoom_factor < 6 and zoom_factor > 0`
before storing the zoom factor.  The environment and request counter are
threaded to express that construction issues no network request: the
returned counter always equals the input counter. -/
def StreetView.init (_env : Env) (n : Nat) (latitude longitude zoom_factor : Int) :
    Except Err StreetView × Nat :=
  if zoom_factor < 6 ∧ zoom_factor > 0 then
    (.ok { latitude := latitude, longitude := longitude, zoom_factor := zoom_factor,
           _num_columns := 0, _num_rows := 0, _metadata := none, _meta_url := none }, n)
  else
    (.error .assertionError, n)

/-- The metadata URL string built by the `meta_url` property
(`"...ll={latitude},{longitude}..."`). -/
def metaUrlString (lat lon : Int) : String :=
  "https://maps.google.com/cbk?output=json&hl=x-local&ll=" ++ toString lat ++ ","
    ++ toString lon ++ "&cb_client=maps_sv&v=3"

/-- The `meta_url` property: memoizes the URL string into `_meta_url` on
first use (guard: `not isinstance(self._meta_url, str)`) and returns it. -/
def StreetView.metaUrlProp (sv : StreetView) : String × StreetView :=
  match sv._meta_url with
  | some s => (s, sv)
  | none =>
    (metaUrlString sv.latitude sv.longitude,
     { sv with _meta_url := some (metaUrlString sv.latitude sv.longitude) })

/-- The fetch path of the `metadata` property: reads `meta_url` (which
may write the `_meta_url` cache), issues one metadata request, and on
success stores the parse result — whatever its type — into `_metadata`.
On an exception from `requests.get` or `json.loads`, `_metadata` is left
unchanged and the exception propagates. -/
def StreetView.metaFetch (env : Env) (n : Nat) (sv : StreetView) :
    Except Err Json × StreetView × Nat :=
  let sv₁ := (sv.metaUrlProp).2
  match env.metaResp n with
  | .ok j => (.ok j, { sv₁ with _metadata := some j }, n + 1)
  | .error e => (.error e, sv₁, n + 1)

/-- The `metadata` property: returns the cached value when
`isinstance(self._metadata, dict)` holds, otherwise fetches (note that a
previously stored non-dict parse result fails the guard and triggers a
re-fetch). -/
def StreetView.metadataProp (env : Env) (n : Nat) (sv : StreetView) :
    Except Err Json × StreetView × Nat :=
  match sv._metadata with
  | some m => if m.isDict then (.ok m, sv, n) else sv.metaFetch env n
  | none => sv.metaFetch env n

/-- Body of `original_height`: `int(metadata['Data']['image_height'])`. -/
def original_height_pure (md : Json) : Except Err Int :=
  (md.index "Data").bind fun d =>
    (d.index "image_height").bind fun v =>
      match v.toIntCoe with
      | some i => .ok i
      | none => .error .valueError

/-- Body of `original_width`: `int(metadata['Data']['image_width'])`. -/
def original_width_pure (md : Json) : Except Err Int :=
  (md.index "Data").bind fun d =>
    (d.index "image_width").bind fun v =>
      match v.toIntCoe with
      | some i => .ok i
      | none => .error .valueError

/-- Body of `pano_id`: `metadata['Links'][0]['panoId']`. -/
def pano_id_pure (md : Json) : Except Err Json :=
  (md.index "Links").bind fun l =>
    (l.item 0).bind fun e => e.index "panoId"

/-- The divisor `2 ** (5 - zoom_factor)` of `output_width` /
`output_height`.  The assertion in `__init__` bounds the session's zoom
factor below 6, so the Python exponent is a non-negative integer. -/
def zoomDivisor (z : Int) : Int := 2 ^ (5 - z).toNat

/-- Body of `output_width`:
`int(original_width / 2 ** (5 - zoom_factor))`.  Python performs float
division followed by `int` truncation toward zero; division of an
integer by a power of two is exact in binary floating point whenever the
numerator is exactly representable (true for every magnitude below
2^53, which bounds any actual image dimension), so this is embedded as
exact truncating integer division (`Int.div`). -/
def output_width_pure (md : Json) (z : Int) : Except Err Int :=
  (original_width_pure md).map fun w => Int.tdiv w (zoomDivisor z)

/-- Body of `output_height`, analogous to `output_width`. -/
def output_height_pure (md : Json) (z : Int) : Except Err Int :=
  (original_height_pure md).map fun h => Int.tdiv h (zoomDivisor z)

/-- `int(math.ceil(a / b))` for a positive integer divisor `b`: the
exact ceiling of the quotient (the float division `a / 512` is exact for
every numerator magnitude below 2^53), expressed with Euclidean
division as `-((-a) / b)`. -/
def ceilIntDiv (a b : Int) : Int := -((-a) / b)

/-- Body of `num_columns`: `int(math.ceil(output_width / 512))`. -/
def num_columns_pure (md : Json) (z : Int) : Except Err Int :=
  (output_width_pure md z).map fun ow => ceilIntDiv ow 512

/-- Body of `num_rows`: `int(math.ceil(output_height / 512))`, plus one
when `zoom_factor == 2`. -/
def num_rows_pure (md : Json) (z : Int) : Except Err Int :=
  (output_height_pure md z).map fun oh =>
    if z = 2 then ceilIntDiv oh 512 + 1 else ceilIntDiv oh 512

/-- The `pano_id` property: one `metadata` access followed by the pure
subscript chain. -/
def StreetView.pano_idProp (env : Env) (n : Nat) (sv : StreetView) :
    Except Err Json × StreetView × Nat :=
  let r := sv.metadataProp env n
  (r.1.bind pano_id_pure, r.2.1, r.2.2)

/-- The `num_rows` property: one `metadata` access (via
`output_height` → `original_height`) followed by the pure computation. -/
def StreetView.num_rowsProp (env : Env) (n : Nat) (sv : StreetView) :
    Except Err Int × StreetView × Nat :=
  let r := sv.metadataProp env n
  (r.1.bind fun md => num_rows_pure md r.2.1.zoom_factor, r.2.1, r.2.2)

/-- The `num_columns` property: one `metadata` access followed by the
pure computation. -/
def StreetView.num_columnsProp (env : Env) (n : Nat) (sv : StreetView) :
    Except Err Int × StreetView × Nat :=
  let r := sv.metadataProp env n
  (r.1.bind fun md => num_columns_pure md r.2.1.zoom_factor, r.2.1, r.2.2)

/-- One tile request, capturing the query parameters of the tile URL
that depend on the session and grid position: `panoid` (the value of
the `pano_id` property), `zoom` (the session's `zoom_factor`), and the
`x` / `y` coordinates. -/
structure TileReq where
  panoid : Json
  zoom : Int
  x : Nat
  y : Nat

/-- State threaded through `download`: the session object, the metadata
request counter, and the list of tile requests issued so far, in
order. -/
structure DLState where
  sv : StreetView
  n : Nat
  trace : List TileReq

/-- The inner (column) loop of `download` for one row: for each column,
the tile URL is built (reading the `pano_id` property — an exception
there propagates before any request is issued) and the tile request is
issued; the response either becomes the row accumulator `cur_slice`
(first tile) or is concatenated to its right with `get_concat_h`.  Any
exception aborts the loop with the trace up to and including the failed
request. -/
def downloadCols (env : Env) (row : Nat) :
    List Nat → DLState → Option PILImage → DLState × Except Err (Option PILImage)
  | [], st, cur => (st, .ok cur)
  | c :: cs, st, cur =>
    let p := st.sv.pano_idProp env st.n
    match p.1 with
    | .error e => (⟨p.2.1, p.2.2, st.trace⟩, .error e)
    | .ok pid =>
      let st' : DLState := ⟨p.2.1, p.2.2, st.trace ++ [⟨pid, p.2.1.zoom_factor, c, row⟩]⟩
      match env.tileResp c row with
      | .error e => (st', .error e)
      | .ok img =>
        downloadCols env row cs st'
          (some (match cur with | none => img | some s => get_concat_h s img))

/-- The merge step at the top of each row iteration: a non-`None`
`cur_slice` becomes `IMAGE` when `IMAGE` is still `None` and is
otherwise concatenated below it with `get_concat_v`; a `None`
`cur_slice` leaves `IMAGE` unchanged. -/
def mergeSlice (image cur : Option PILImage) : Option PILImage :=
  match cur with
  | none => image
  | some s =>
    match image with
    | none => some s
    | some im => some (get_concat_v im s)

/-- The outer (row) loop of `download`.  At the top of each iteration a
non-`None` `cur_slice` from the previous row is merged into `IMAGE`
(becoming `IMAGE` when `IMAGE` is still `None`, otherwise concatenated
below it with `get_concat_v`) and reset to `None`; then
`range(self.num_columns)` is evaluated (one `num_columns` property
access per row) and the column loop runs.  Returns the final
`(IMAGE, cur_slice)` pair: note the last row's slice is still in
`cur_slice`, not merged, when the loop ends. -/
def downloadRows (env : Env) :
    List Nat → DLState → Option PILImage → Option PILImage →
      DLState × Except Err (Option PILImage × Option PILImage)
  | [], st, image, cur => (st, .ok (image, cur))
  | r :: rs, st, image, cur =>
    let image' : Option PILImage := mergeSlice image cur
    let q := st.sv.num_columnsProp env st.n
    match q.1 with
    | .error e => (⟨q.2.1, q.2.2, st.trace⟩, .error e)
    | .ok nc =>
      match downloadCols env r (List.range nc.toNat) ⟨q.2.1, q.2.2, st.trace⟩ none with
      | (st', .error e) => (st', .error e)
      | (st', .ok rowSlice) => downloadRows env rs st' image' rowSlice

/-- `StreetView.download`: evaluates `self.num_rows * self.num_columns`
(for the progress bar total — two property accesses), then
`range(self.num_rows)` (a third access), runs the row loop, applies the
trailing `if IMAGE == None: IMAGE = cur_slice`, and saves `IMAGE`.  A
returned `.ok im` means the file at the output path was written with
exactly the composite `im`; `.error e` means the exception `e`
propagated to the caller and no file was written (the save is the last
statement).  Saving when `IMAGE` is still `None` is the
`AttributeError` of `None.save`. -/
def StreetView.download (env : Env) (n : Nat) (sv : StreetView) :
    DLState × Except Err PILImage :=
  let r1 := sv.num_rowsProp env n
  match r1.1 with
  | .error e => (⟨r1.2.1, r1.2.2, []⟩, .error e)
  | .ok _ =>
    let r2 := r1.2.1.num_columnsProp env r1.2.2
    match r2.1 with
    | .error e => (⟨r2.2.1, r2.2.2, []⟩, .error e)
    | .ok _ =>
      let r3 := r2.2.1.num_rowsProp env r2.2.2
      match r3.1 with
      | .error e => (⟨r3.2.1, r3.2.2, []⟩, .error e)
      | .ok nr =>
        match downloadRows env (List.range nr.toNat) ⟨r3.2.1, r3.2.2, []⟩ none none with
        | (st, .error e) => (st, .error e)
        | (st, .ok (image, cur)) =>
          match image with
          | some im => (st, .ok im)
          | none =>
            match cur with
            | some im => (st, .ok im)
            | none => (st, .error .attributeError)

/-- The metadata-derived accessors named by the specification. -/
inductive Accessor where
  | pano_id
  | original_width
  | original_height
  | output_width
  | output_height
  | num_rows
  | num_columns
deriving DecidableEq, Repr

/-- Result of reading an accessor: `pano_id` returns a JSON value, the
others return integers. -/
inductive AccessorVal where
  | json (j : Json)
  | int (i : Int)

/-- The pure body of each accessor as a function of the metadata value
and the zoom factor (exactly the subscript / arithmetic chain each
property applies to the result of its single `metadata` access). -/
def accessorPure (a : Accessor) (md : Json) (z : Int) : Except Err AccessorVal :=
  match a with
  | .pano_id => (pano_id_pure md).map .json
  | .original_width => (original_width_pure md).map .int
  | .original_height => (original_height_pure md).map .int
  | .output_width => (output_width_pure md z).map .int
  | .output_height => (output_height_pure md z).map .int
  | .num_rows => (num_rows_pure md z).map .int
  | .num_columns => (num_columns_pure md z).map .int

/-- Reading one accessor on the session: every accessor body performs
exactly one `metadata` property access (each property reaches
`self.metadata` through at most one nested property chain) followed by
a pure computation on its result and the `zoom_factor` field. -/
def readAccessor (env : Env) (a : Accessor) (n : Nat) (sv : StreetView) :
    Except Err AccessorVal × StreetView × Nat :=
  let r := sv.metadataProp env n
  (r.1.bind fun md => accessorPure a md r.2.1.zoom_factor, r.2.1, r.2.2)

/-- Reading a sequence of accessors left to right, collecting the
returned values (or raised exceptions: a raised exception from one read
does not stop subsequent reads, modelling a caller that catches and
retries). -/
def runAccessors (env : Env) :
    List Accessor → StreetView → Nat → List (Except Err AccessorVal) × StreetView × Nat
  | [], sv, n => ([], sv, n)
  | a :: rest, sv, n =>
    let r := readAccessor env a n sv
    let rr := runAccessors env rest r.2.1 r.2.2
    (r.1 :: rr.1, rr.2.1, rr.2.2)

/-- Dimensions of the image a `download` run saved, `none` when the run
raised and wrote nothing. -/
def resultDims : DLState × Except Err PILImage → Option (Nat × Nat)
  | (_, .ok im) => some (im.width, im.height)
  | (_, .error _) => none

/-- The row-major list of tile requests for the given rows, with `nc`
columns per row. -/
def rowMajorTrace (pid : Json) (z : Int) (nc : Nat) : List Nat → List TileReq
  | [] => []
  | r :: rs => (List.range nc).map (fun c => ⟨pid, z, c, r⟩) ++ rowMajorTrace pid z nc rs

/-! ### Dimension and pixel behaviour of the concatenation helpers -/

lemma get_concat_h_width (im1 im2 : PILImage) :
    (get_concat_h im1 im2).width = im1.width + im2.width := rfl

lemma get_concat_h_height (im1 im2 : PILImage) :
    (get_concat_h im1 im2).height = im1.height := rfl

lemma get_concat_v_width (im1 im2 : PILImage) :
    (get_concat_v im1 im2).width = im1.width := rfl

lemma get_concat_v_height (im1 im2 : PILImage) :
    (get_concat_v im1 im2).height = im1.height + im2.height := rfl

lemma concat_h_px_left (im1 im2 : PILImage) (x y : Nat)
    (hx : x < im1.width) (hy : y < im1.height) :
    (get_concat_h im1 im2).px x y = im1.px x y := by
  simp only [get_concat_h, PILImage.paste, imageNew]
  split_ifs with h1 h2
  · omega
  · simp
  · omega

lemma concat_h_px_right (im1 im2 : PILImage) (x y : Nat)
    (hx1 : im1.width ≤ x) (hx2 : x < im1.width + im2.width) (hy : y < im1.height) :
    (get_concat_h im1 im2).px x y =
      if y < im2.height then im2.px (x - im1.width) y else rgbBlack := by
  simp only [get_concat_h, PILImage.paste, imageNew]
  split_ifs with h1 h2 <;> first | omega | simp

lemma concat_v_px_top (im1 im2 : PILImage) (x y : Nat)
    (hx : x < im1.width) (hy : y < im1.height) :
    (get_concat_v im1 im2).px x y = im1.px x y := by
  simp only [get_concat_v, PILImage.paste, imageNew]
  split_ifs with h1 h2
  · omega
  · simp
  · omega

lemma concat_v_px_bottom (im1 im2 : PILImage) (x y : Nat)
    (hy1 : im1.height ≤ y) (hy2 : y < im1.height + im2.height) (hx : x < im1.width) :
    (get_concat_v im1 im2).px x y =
      if x < im2.width then im2.px x (y - im1.height) else rgbBlack := by
  simp only [get_concat_v, PILImage.paste, imageNew]
  split_ifs with h1 h2 <;> first | omega | simp

lemma foldl_concat_h_height (t : PILImage) (ts : List PILImage) :
    (ts.foldl get_concat_h t).height = t.height := by
  induction ts generalizing t with
  | nil => rfl
  | cons u us ih => simpa [List.foldl_cons, get_concat_h_height] using ih (get_concat_h t u)

lemma foldl_concat_h_width (t : PILImage) (ts : List PILImage) :
    (ts.foldl get_concat_h t).width = t.width + (ts.map PILImage.width).sum := by
  induction ts generalizing t with
  | nil => simp
  | cons u us ih =>
    have := ih (get_concat_h t u)
    simp only [List.foldl_cons, List.map_cons, List.sum_cons] at this ⊢
    rw [this, get_concat_h_width]
    omega

lemma foldl_concat_v_width (t : PILImage) (ts : List PILImage) :
    (ts.foldl get_concat_v t).width = t.width := by
  induction ts generalizing t with
  | nil => rfl
  | cons u us ih => simpa [List.foldl_cons, get_concat_v_width] using ih (get_concat_v t u)

lemma foldl_concat_v_height (t : PILImage) (ts : List PILImage) :
    (ts.foldl get_concat_v t).height = t.height + (ts.map PILImage.height).sum := by
  induction ts generalizing t with
  | nil => simp
  | cons u us ih =>
    have := ih (get_concat_v t u)
    simp only [List.foldl_cons, List.map_cons, List.sum_cons] at this ⊢
    rw [this, get_concat_v_height]
    omega

/-- A 1 × 1 image (uniform colour (10, 20, 30)). -/
def imgOneOne : PILImage := ⟨1, 1, fun _ _ => ⟨10, 20, 30⟩⟩

/-- A 1 × 2 image (uniform colour (40, 50, 60)): same width as
`imgOneOne` but a different height. -/
def imgOneTwo : PILImage := ⟨1, 2, fun _ _ => ⟨40, 50, 60⟩⟩

/-- A 2 × 1 image (uniform colour (70, 80, 90)): same height as
`imgOneOne` but a different width. -/
def imgTwoOne : PILImage := ⟨2, 1, fun _ _ => ⟨70, 80, 90⟩⟩

/-- C3 counterexample: the claim says concatenating two images of
differing heights horizontally (or differing widths vertically) fails
with an error.  It does not: `get_concat_h` / `get_concat_v` are total
(PIL's `paste` never raises on a size mismatch), and at these
mismatched concrete inputs each returns a well-formed image whose
dimensions are taken from `im1` — the mismatch is absorbed silently,
not rejected. -/
theorem c3_mismatch_counterexample :
    (get_concat_h imgOneOne imgOneTwo).width = 2 ∧
    (get_concat_h imgOneOne imgOneTwo).height = 1 ∧
    (get_concat_v imgOneOne imgTwoOne).width = 1 ∧
    (get_concat_v imgOneOne imgTwoOne).height = 2 :=
  ⟨rfl, rfl, rfl, rfl⟩

/-- C3 (amended): for images of differing heights, horizontal
concatenation does not fail; it returns an image of width `im1.width +
im2.width` and height `im1.height`, silently cropping `im2` to
`im1.height` rows and filling any shortfall with black background.
Vertical concatenation of images of differing widths likewise returns
an image of width `im1.width` and height `im1.height + im2.height`,
cropping or padding `im2` horizontally. -/
theorem c3_mismatch_amended :
    (∀ im1 im2 : PILImage, im1.height ≠ im2.height →
      (get_concat_h im1 im2).width = im1.width + im2.width ∧
      (get_concat_h im1 im2).height = im1.height ∧
      (∀ x y : Nat, im1.width ≤ x → x < im1.width + im2.width → y < im1.height →
        (get_concat_h im1 im2).px x y =
          if y < im2.height then im2.px (x - im1.width) y else rgbBlack)) ∧
    (∀ im1 im2 : PILImage, im1.width ≠ im2.width →
      (get_concat_v im1 im2).width = im1.width ∧
      (get_concat_v im1 im2).height = im1.height + im2.height ∧
      (∀ x y : Nat, im1.height ≤ y → y < im1.height + im2.height → x < im1.width →
        (get_concat_v im1 im2).px x y =
          if x < im2.width then im2.px x (y - im1.height) else rgbBlack)) := by
  constructor
  · intro im1 im2 _
    exact ⟨get_concat_h_width im1 im2, get_concat_h_height im1 im2,
      fun x y hx1 hx2 hy => concat_h_px_right im1 im2 x y hx1 hx2 hy⟩
  · intro im1 im2 _
    exact ⟨get_concat_v_width im1 im2, get_concat_v_height im1 im2,
      fun x y hy1 hy2 hx => concat_v_px_bottom im1 im2 x y hy1 hy2 hx⟩

/-- C3 (amended) witness: the amended statement evaluated on the
concrete mismatched images of the counterexample. -/
theorem c3_mismatch_amended_witness :
    (get_concat_h imgOneOne imgOneTwo).height = 1 ∧
    (get_concat_h imgOneOne imgOneTwo).px 1 0 = ⟨40, 50, 60⟩ ∧
    (get_concat_v imgOneOne imgTwoOne).width = 1 ∧
    (get_concat_v imgOneOne imgTwoOne).px 0 1 = ⟨70, 80, 90⟩ := by
  obtain ⟨hh, hv⟩ := c3_mismatch_amended
  obtain ⟨h1, h2, h3⟩ := hh imgOneOne imgOneTwo (by decide)
  obtain ⟨v1, v2, v3⟩ := hv imgOneOne imgTwoOne (by decide)
  refine ⟨h2, ?_, v1, ?_⟩
  · have := h3 1 0 (by decide) (by decide) (by decide)
    simpa using this
  · have := v3 0 1 (by decide) (by decide) (by decide)
    simpa using this

/-- C7: folding N ≥ 1 tiles of common height H and widths w_1..w_N
left-to-right with `get_concat_h` yields an image of height H and width
w_1 + ... + w_N; folding M ≥ 1 row-images of common width W with
`get_concat_v` yields an image of width W and height h_1 + ... + h_M.
The non-empty collection is written as a head tile plus a list of
remaining tiles, matching the code's use of the first tile as the
accumulator. -/
theorem c7_fold_dimensions :
    (∀ (H : Nat) (t : PILImage) (ts : List PILImage),
      t.height = H → (∀ u ∈ ts, u.height = H) →
      (ts.foldl get_concat_h t).height = H ∧
      (ts.foldl get_concat_h t).width = t.width + (ts.map PILImage.width).sum) ∧
    (∀ (W : Nat) (t : PILImage) (ts : List PILImage),
      t.width = W → (∀ u ∈ ts, u.width = W) →
      (ts.foldl get_concat_v t).width = W ∧
      (ts.foldl get_concat_v t).height = t.height + (ts.map PILImage.height).sum) := by
  constructor
  · intro H t ts ht _
    exact ⟨ht ▸ foldl_concat_h_height t ts, foldl_concat_h_width t ts⟩
  · intro W t ts ht _
    exact ⟨ht ▸ foldl_concat_v_width t ts, foldl_concat_v_height t ts⟩

/-- C7 witness: three 1 × 1 tiles concatenate horizontally to a 3 × 1
image, and two same-width tiles of heights 1 and 2 concatenate
vertically to a 1 × 3 image. -/
theorem c7_fold_dimensions_witness :
    ([imgOneOne, imgOneOne].foldl get_concat_h imgOneOne).height = 1 ∧
    ([imgOneOne, imgOneOne].foldl get_concat_h imgOneOne).width = 3 ∧
    ([imgOneTwo].foldl get_concat_v imgOneOne).width = 1 ∧
    ([imgOneTwo].foldl get_concat_v imgOneOne).height = 3 := by
  obtain ⟨hh, hv⟩ := c7_fold_dimensions
  obtain ⟨h1, h2⟩ := hh 1 imgOneOne [imgOneOne, imgOneOne] rfl (by
    intro u hu
    simp only [List.mem_cons, List.not_mem_nil, or_false] at hu
    rcases hu with h | h <;> subst h <;> rfl)
  obtain ⟨v1, v2⟩ := hv 1 imgOneOne [imgOneTwo] rfl (by
    intro u hu
    simp only [List.mem_cons, List.not_mem_nil, or_false] at hu
    subst hu; rfl)
  exact ⟨h1, by simpa using h2, v1, by simpa using v2⟩

/-- C9: for all images, with no condition on their dimensions,
`get_concat_h` returns an image of width `im1.width + im2.width` and
height exactly `im1.height`, and `get_concat_v` returns an image of
width exactly `im1.width` and height `im1.height + im2.height`.  The
pixel clauses make the silent crop/pad explicit: in the region
contributed by `im2`, rows (resp. columns) beyond `im2`'s extent read
as black background, and `im2`'s pixels beyond `im1.height` (resp.
`im1.width`) are simply absent from the result.  Both functions are
total Lean functions — as in the source, where PIL's `paste` clips and
never raises, no error path exists. -/
theorem c9_concat_total_behaviour (im1 im2 : PILImage) :
    (get_concat_h im1 im2).width = im1.width + im2.width ∧
    (get_concat_h im1 im2).height = im1.height ∧
    (get_concat_v im1 im2).width = im1.width ∧
    (get_concat_v im1 im2).height = im1.height + im2.height ∧
    (∀ x y : Nat, x < im1.width → y < im1.height →
      (get_concat_h im1 im2).px x y = im1.px x y) ∧
    (∀ x y : Nat, im1.width ≤ x → x < im1.width + im2.width → y < im1.height →
      (get_concat_h im1 im2).px x y =
        if y < im2.height then im2.px (x - im1.width) y else rgbBlack) ∧
    (∀ x y : Nat, x < im1.width → y < im1.height →
      (get_concat_v im1 im2).px x y = im1.px x y) ∧
    (∀ x y : Nat, im1.height ≤ y → y < im1.height + im2.height → x < im1.width →
      (get_concat_v im1 im2).px x y =
        if x < im2.width then im2.px x (y - im1.height) else rgbBlack) :=
  ⟨get_concat_h_width im1 im2, get_concat_h_height im1 im2,
   get_concat_v_width im1 im2, get_concat_v_height im1 im2,
   fun x y hx hy => concat_h_px_left im1 im2 x y hx hy,
   fun x y hx1 hx2 hy => concat_h_px_right im1 im2 x y hx1 hx2 hy,
   fun x y hx hy => concat_v_px_top im1 im2 x y hx hy,
   fun x y hy1 hy2 hx => concat_v_px_bottom im1 im2 x y hy1 hy2 hx⟩

/-- C9 witness: the behaviour evaluated on a concrete mismatched pair —
a 2 × 1 image next to a 1 × 2 image gives a 3 × 1 result whose extra
column shows `im2`'s top pixel, and stacking a 1 × 2 image under a
2 × 1 image gives a 2 × 2 result whose out-of-`im2` column reads
black. -/
theorem c9_concat_total_behaviour_witness :
    (get_concat_h imgTwoOne imgOneTwo).width = 3 ∧
    (get_concat_h imgTwoOne imgOneTwo).height = 1 ∧
    (get_concat_h imgTwoOne imgOneTwo).px 0 0 = ⟨70, 80, 90⟩ ∧
    (get_concat_h imgTwoOne imgOneTwo).px 2 0 = ⟨40, 50, 60⟩ ∧
    (get_concat_v imgTwoOne imgOneTwo).width = 2 ∧
    (get_concat_v imgTwoOne imgOneTwo).height = 3 ∧
    (get_concat_v imgTwoOne imgOneTwo).px 1 1 = rgbBlack := by
  obtain ⟨w1, h1, w2, h2, pl, pr, pt, pb⟩ := c9_concat_total_behaviour imgTwoOne imgOneTwo
  refine ⟨w1, h1, ?_, ?_, w2, h2, ?_⟩
  · simpa using pl 0 0 (by decide) (by decide)
  · simpa using pr 2 0 (by decide) (by decide) (by decide)
  · simpa using pb 1 1 (by decide) (by decide) (by decide)

/-! ### C1: output dimensions and grid size -/

/-- For a positive divisor, `ceilIntDiv a b` is the exact ceiling of
the rational quotient `a / b`: it is the unique integer `c` with
`b * (c - 1) < a ≤ b * c`. -/
lemma ceilIntDiv_bounds (a b : Int) (hb : 0 < b) :
    b * (ceilIntDiv a b - 1) < a ∧ a ≤ b * ceilIntDiv a b := by
  have h1 := Int.ediv_add_emod (-a) b
  have h2 := Int.emod_nonneg (-a) (ne_of_gt hb)
  have h3 := Int.emod_lt_of_pos (-a) hb
  unfold ceilIntDiv
  constructor <;> nlinarith

/-- C1: for metadata whose `image_width` / `image_height` coerce to
non-negative integers `w` / `h` and any `zoom_factor` in {1, 2, 3, 4}:
`output_width` is `⌊w / 2 ^ (5 - zoom_factor)⌋` (Euclidean division by
a positive power of two, i.e. the floor; the source's `int()`
truncation agrees on non-negative values), `output_height` analogously;
`num_columns` is the ceiling of `output_width / 512`, characterised by
its defining bounds; and `num_rows` is the ceiling of
`output_height / 512` plus exactly one when `zoom_factor = 2` and
unchanged for every other zoom factor. -/
theorem c1_grid_dimensions (md : Json) (z w h : Int)
    (hz : z = 1 ∨ z = 2 ∨ z = 3 ∨ z = 4)
    (hw : original_width_pure md = .ok w) (hw0 : 0 ≤ w)
    (hh : original_height_pure md = .ok h) (hh0 : 0 ≤ h) :
    output_width_pure md z = .ok (w / zoomDivisor z) ∧
    output_height_pure md z = .ok (h / zoomDivisor z) ∧
    (∃ nc, num_columns_pure md z = .ok nc ∧
      512 * (nc - 1) < w / zoomDivisor z ∧ w / zoomDivisor z ≤ 512 * nc) ∧
    (∃ b, num_rows_pure md z = .ok (b + if z = 2 then 1 else 0) ∧
      512 * (b - 1) < h / zoomDivisor z ∧ h / zoomDivisor z ≤ 512 * b) := by
  have hdiv : (0 : Int) < zoomDivisor z := by
    unfold zoomDivisor
    positivity
  have htw : Int.tdiv w (zoomDivisor z) = w / zoomDivisor z :=
    Int.tdiv_eq_ediv hw0 (le_of_lt hdiv)
  have hth : Int.tdiv h (zoomDivisor z) = h / zoomDivisor z :=
    Int.tdiv_eq_ediv hh0 (le_of_lt hdiv)
  have how : output_width_pure md z = .ok (w / zoomDivisor z) := by
    unfold output_width_pure
    rw [hw, Except.map, htw]
  have hoh : output_height_pure md z = .ok (h / zoomDivisor z) := by
    unfold output_height_pure
    rw [hh, Except.map, hth]
  refine ⟨how, hoh, ?_, ?_⟩
  · refine ⟨ceilIntDiv (w / zoomDivisor z) 512, ?_, ?_, ?_⟩
    · unfold num_columns_pure
      rw [how, Except.map]
    · exact (ceilIntDiv_bounds (w / zoomDivisor z) 512 (by norm_num)).1
    · exact (ceilIntDiv_bounds (w / zoomDivisor z) 512 (by norm_num)).2
  · refine ⟨ceilIntDiv (h / zoomDivisor z) 512, ?_, ?_, ?_⟩
    · unfold num_rows_pure
      rw [hoh, Except.map]
      rcases hz with hz | hz | hz | hz <;> subst hz <;> norm_num
    · exact (ceilIntDiv_bounds (h / zoomDivisor z) 512 (by norm_num)).1
    · exact (ceilIntDiv_bounds (h / zoomDivisor z) 512 (by norm_num)).2

/-- The synthetic metadata of the specification's end-to-end scenario:
`{Data: {image_width: 16384, image_height: 8192}, Links: [{panoId:
"X"}]}`. -/
def mdSpec : Json :=
  .dict [("Data", .dict [("image_width", .num 16384), ("image_height", .num 8192)]),
         ("Links", .arr [.dict [("panoId", .str "X")]])]

/-- C1 witness: the specification's own scenario — at `zoom_factor = 4`
the 16384 × 8192 panorama yields an 8192 × 4096 output and a 16 × 8
grid; at `zoom_factor = 2` the output is 2048 × 1024 and `num_rows` is
2 + 1 = 3 while `num_columns` is 4. -/
theorem c1_grid_dimensions_witness :
    output_width_pure mdSpec 4 = .ok 8192 ∧
    output_height_pure mdSpec 4 = .ok 4096 ∧
    num_columns_pure mdSpec 4 = .ok 16 ∧
    num_rows_pure mdSpec 4 = .ok 8 ∧
    num_rows_pure mdSpec 2 = .ok 3 := by
  obtain ⟨hw4, hh4, ⟨nc4, hnc4, hncl4, hncu4⟩, ⟨b4, hnr4, hnrl4, hnru4⟩⟩ :=
    c1_grid_dimensions mdSpec 4 16384 8192 (by norm_num) rfl (by norm_num) rfl (by norm_num)
  obtain ⟨_, hh2, _, ⟨b2, hnr2, hnrl2, hnru2⟩⟩ :=
    c1_grid_dimensions mdSpec 2 16384 8192 (by norm_num) rfl (by norm_num) rfl (by norm_num)
  have hzd4 : zoomDivisor 4 = 2 := by decide
  have hzd2 : zoomDivisor 2 = 8 := by decide
  rw [hzd4] at hw4 hh4 hncl4 hncu4 hnrl4 hnru4
  rw [hzd2] at hh2 hnrl2 hnru2
  have hnc4v : nc4 = 16 := by omega
  have hb4v : b4 = 8 := by omega
  have hb2v : b2 = 2 := by omega
  subst hnc4v hb4v hb2v
  norm_num at hw4 hh4 hnr4 hnr2 ⊢
  exact ⟨hw4, hh4, hnc4, hnr4, hnr2⟩

/-! ### C4: zoom factor validation at construction -/

/-- An environment in which every request fails: used where a theorem
must not depend on any response. -/
def envNoNet : Env :=
  ⟨fun _ => .error .networkError, fun _ _ => .error .networkError⟩

/-- C4: the claim says construction fails for every `zoom_factor`
outside the open interval (0, 5) — in particular for 0 and for 5 —
before any network request.  The constructor's own docstring agrees
("zoom factor (1-4)"), but the assertion in the source is
`zoom_factor < 6 and zoom_factor > 0`: `zoom_factor = 0` is indeed
rejected with no request issued, while `zoom_factor = 5` is accepted
and construction succeeds, contradicting both the claim and the
docstring. -/
theorem c4_zoom_validation_bug :
    (StreetView.init envNoNet 0 40 (-75) 0).1.isOk = false ∧
    (StreetView.init envNoNet 0 40 (-75) 0).2 = 0 ∧
    (StreetView.init envNoNet 0 40 (-75) 5).1.isOk = true ∧
    (StreetView.init envNoNet 0 40 (-75) 5).2 = 0 ∧
    (StreetView.init envNoNet 0 40 (-75) (-3)).1.isOk = false ∧
    (StreetView.init envNoNet 0 40 (-75) 6).1.isOk = false := by
  refine ⟨?_, rfl, ?_, rfl, ?_, ?_⟩ <;> decide

/-! ### Sessions with resolved (cached dict) metadata -/

lemma metadataProp_resolved (env : Env) (n : Nat) (sv : StreetView) (md : Json)
    (hm : sv._metadata = some md) (hd : md.isDict = true) :
    sv.metadataProp env n = (.ok md, sv, n) := by
  unfold StreetView.metadataProp
  rw [hm]
  simp [hd]

lemma pano_idProp_resolved (env : Env) (n : Nat) (sv : StreetView) (md pid : Json)
    (hm : sv._metadata = some md) (hd : md.isDict = true)
    (hp : pano_id_pure md = .ok pid) :
    sv.pano_idProp env n = (.ok pid, sv, n) := by
  simp [StreetView.pano_idProp, metadataProp_resolved env n sv md hm hd, Except.bind, hp]

lemma num_rowsProp_resolved (env : Env) (n : Nat) (sv : StreetView) (md : Json)
    (hm : sv._metadata = some md) (hd : md.isDict = true) :
    sv.num_rowsProp env n = (num_rows_pure md sv.zoom_factor, sv, n) := by
  simp [StreetView.num_rowsProp, metadataProp_resolved env n sv md hm hd, Except.bind]

lemma num_columnsProp_resolved (env : Env) (n : Nat) (sv : StreetView) (md : Json)
    (hm : sv._metadata = some md) (hd : md.isDict = true) :
    sv.num_columnsProp env n = (num_columns_pure md sv.zoom_factor, sv, n) := by
  simp [StreetView.num_columnsProp, metadataProp_resolved env n sv md hm hd, Except.bind]

/-! ### The column loop on a resolved session -/

lemma downloadCols_ok (env : Env) (sv : StreetView) (md pid : Json) (r : Nat)
    (hm : sv._metadata = some md) (hd : md.isDict = true)
    (hp : pano_id_pure md = .ok pid) :
    ∀ (cols : List Nat) (n : Nat) (tr : List TileReq) (cur : Option PILImage),
      (∀ c ∈ cols, (env.tileResp c r).isOk = true) →
      ∃ res : Option PILImage,
        downloadCols env r cols ⟨sv, n, tr⟩ cur =
          (⟨sv, n, tr ++ cols.map fun c => ⟨pid, sv.zoom_factor, c, r⟩⟩, .ok res) := by
  intro cols
  induction cols with
  | nil => exact fun n tr cur _ => ⟨cur, by simp [downloadCols]⟩
  | cons c cs ih =>
    intro n tr cur hok
    have hc : (env.tileResp c r).isOk = true := hok c (List.mem_cons_self c cs)
    obtain ⟨img, himg⟩ : ∃ img, env.tileResp c r = .ok img := by
      cases henv : env.tileResp c r with
      | ok img => exact ⟨img, rfl⟩
      | error e => rw [henv] at hc; simp [Except.isOk, Except.toBool] at hc
    obtain ⟨res, hres⟩ :=
      ih n (tr ++ [⟨pid, sv.zoom_factor, c, r⟩])
        (some (match cur with | none => img | some s => get_concat_h s img))
        (fun c' hc' => hok c' (List.mem_cons_of_mem c hc'))
    refine ⟨res, ?_⟩
    simp only [downloadCols, pano_idProp_resolved env n sv md pid hm hd hp, himg]
    rw [hres]
    simp

lemma downloadCols_err (env : Env) (sv : StreetView) (md pid : Json) (r : Nat)
    (hm : sv._metadata = some md) (hd : md.isDict = true)
    (hp : pano_id_pure md = .ok pid) :
    ∀ (pre : List Nat) (cf : Nat) (rest : List Nat) (n : Nat) (tr : List TileReq)
      (cur : Option PILImage),
      (∀ c ∈ pre, (env.tileResp c r).isOk = true) →
      (env.tileResp cf r).isOk = false →
      ∃ e, downloadCols env r (pre ++ cf :: rest) ⟨sv, n, tr⟩ cur =
        (⟨sv, n, tr ++ (pre ++ [cf]).map fun c => ⟨pid, sv.zoom_factor, c, r⟩⟩, .error e) := by
  intro pre
  induction pre with
  | nil =>
    intro cf rest n tr cur _ hfail
    obtain ⟨e, he⟩ : ∃ e, env.tileResp cf r = .error e := by
      cases henv : env.tileResp cf r with
      | ok img => rw [henv] at hfail; simp [Except.isOk, Except.toBool] at hfail
      | error e => exact ⟨e, rfl⟩
    refine ⟨e, ?_⟩
    simp only [List.nil_append, downloadCols,
      pano_idProp_resolved env n sv md pid hm hd hp, he]
    simp
  | cons c cs ih =>
    intro cf rest n tr cur hok hfail
    have hc : (env.tileResp c r).isOk = true := hok c (List.mem_cons_self c cs)
    obtain ⟨img, himg⟩ : ∃ img, env.tileResp c r = .ok img := by
      cases henv : env.tileResp c r with
      | ok img => exact ⟨img, rfl⟩
      | error e => rw [henv] at hc; simp [Except.isOk, Except.toBool] at hc
    obtain ⟨e, he⟩ :=
      ih cf rest n (tr ++ [⟨pid, sv.zoom_factor, c, r⟩])
        (some (match cur with | none => img | some s => get_concat_h s img))
        (fun c' hc' => hok c' (List.mem_cons_of_mem c hc')) hfail
    refine ⟨e, ?_⟩
    simp only [List.cons_append, downloadCols,
      pano_idProp_resolved env n sv md pid hm hd hp, himg, List.append_eq]
    rw [he]
    simp

/-! ### The row loop on a resolved session -/

lemma downloadRows_ok (env : Env) (sv : StreetView) (md pid : Json) (ncI : Int)
    (hm : sv._metadata = some md) (hd : md.isDict = true)
    (hp : pano_id_pure md = .ok pid)
    (hnc : num_columns_pure md sv.zoom_factor = .ok ncI) :
    ∀ (rows : List Nat) (n : Nat) (tr : List TileReq) (image cur : Option PILImage),
      (∀ r ∈ rows, ∀ c ∈ List.range ncI.toNat, (env.tileResp c r).isOk = true) →
      ∃ image2 cur2,
        downloadRows env rows ⟨sv, n, tr⟩ image cur =
          (⟨sv, n, tr ++ rowMajorTrace pid sv.zoom_factor ncI.toNat rows⟩,
            .ok (image2, cur2)) := by
  intro rows
  induction rows with
  | nil =>
    intro n tr image cur _
    exact ⟨image, cur, by simp [downloadRows, rowMajorTrace]⟩
  | cons r rs ih =>
    intro n tr image cur hok
    obtain ⟨rowSlice, hcols⟩ :=
      downloadCols_ok env sv md pid r hm hd hp (List.range ncI.toNat) n tr none
        (fun c hc => hok r (List.mem_cons_self r rs) c hc)
    obtain ⟨image2, cur2, hrest⟩ :=
      ih n (tr ++ (List.range ncI.toNat).map fun c => ⟨pid, sv.zoom_factor, c, r⟩)
        (mergeSlice image cur) rowSlice
        (fun r' hr' c hc => hok r' (List.mem_cons_of_mem r hr') c hc)
    refine ⟨image2, cur2, ?_⟩
    simp only [downloadRows, num_columnsProp_resolved env n sv md hm hd, hnc, hcols, hrest]
    simp [rowMajorTrace]

lemma downloadRows_err (env : Env) (sv : StreetView) (md pid : Json) (ncI : Int)
    (hm : sv._metadata = some md) (hd : md.isDict = true)
    (hp : pano_id_pure md = .ok pid)
    (hnc : num_columns_pure md sv.zoom_factor = .ok ncI) :
    ∀ (preRows : List Nat) (rf : Nat) (restRows : List Nat) (n : Nat) (tr : List TileReq)
      (image cur : Option PILImage) (cf : Nat) (pre rest : List Nat),
      List.range ncI.toNat = pre ++ cf :: rest →
      (∀ r ∈ preRows, ∀ c ∈ List.range ncI.toNat, (env.tileResp c r).isOk = true) →
      (∀ c ∈ pre, (env.tileResp c rf).isOk = true) →
      (env.tileResp cf rf).isOk = false →
      ∃ e,
        downloadRows env (preRows ++ rf :: restRows) ⟨sv, n, tr⟩ image cur =
          (⟨sv, n, tr ++ rowMajorTrace pid sv.zoom_factor ncI.toNat preRows
              ++ (pre ++ [cf]).map fun c => ⟨pid, sv.zoom_factor, c, rf⟩⟩, .error e) := by
  intro preRows
  induction preRows with
  | nil =>
    intro rf restRows n tr image cur cf pre rest hsplit _ hpreok hfail
    obtain ⟨e, hcols⟩ :=
      downloadCols_err env sv md pid rf hm hd hp pre cf rest n tr none hpreok hfail
    refine ⟨e, ?_⟩
    simp only [List.nil_append, downloadRows, num_columnsProp_resolved env n sv md hm hd, hnc,
      hsplit, hcols]
    simp [rowMajorTrace]
  | cons r rs ih =>
    intro rf restRows n tr image cur cf pre rest hsplit hok hpreok hfail
    obtain ⟨rowSlice, hcols⟩ :=
      downloadCols_ok env sv md pid r hm hd hp (List.range ncI.toNat) n tr none
        (fun c hc => hok r (List.mem_cons_self r rs) c hc)
    obtain ⟨e, hrest⟩ :=
      ih rf restRows n (tr ++ (List.range ncI.toNat).map fun c => ⟨pid, sv.zoom_factor, c, r⟩)
        (mergeSlice image cur) rowSlice cf pre rest hsplit
        (fun r' hr' c hc => hok r' (List.mem_cons_of_mem r hr') c hc) hpreok hfail
    refine ⟨e, ?_⟩
    simp only [List.cons_append, downloadRows, num_columnsProp_resolved env n sv md hm hd, hnc,
      hcols, List.append_eq]
    rw [hrest]
    simp [rowMajorTrace]

/-- Splitting `List.range nc` at an element `cf < nc`. -/
lemma range_split (nc cf : Nat) (h : cf < nc) :
    ∃ rest, List.range nc = List.range cf ++ cf :: rest := by
  induction nc with
  | zero => exact absurd h (Nat.not_lt_zero cf)
  | succ m ih =>
    rcases Nat.lt_succ_iff_lt_or_eq.mp h with h' | h'
    · obtain ⟨rest, hr⟩ := ih h'
      refine ⟨rest ++ [m], ?_⟩
      rw [List.range_succ, hr]
      simp
    · subst h'
      exact ⟨[], by rw [List.range_succ]⟩

/-! ### Trace bookkeeping lemmas -/

lemma rowMajorTrace_length (pid : Json) (z : Int) (nc : Nat) :
    ∀ rows, (rowMajorTrace pid z nc rows).length = rows.length * nc := by
  intro rows
  induction rows with
  | nil => simp [rowMajorTrace]
  | cons r rs ih =>
    simp [rowMajorTrace, ih]
    ring

lemma rowMajorTrace_filter_ne (pid : Json) (z : Int) (nc cf rf : Nat) :
    ∀ rows, (∀ r ∈ rows, r ≠ rf) →
      (rowMajorTrace pid z nc rows).filter (fun q => q.x == cf && q.y == rf) = [] := by
  intro rows
  induction rows with
  | nil => simp [rowMajorTrace]
  | cons r rs ih =>
    intro hne
    rw [rowMajorTrace, List.filter_append,
      ih (fun r' hr' => hne r' (List.mem_cons_of_mem r hr')), List.append_nil]
    rw [List.filter_eq_nil_iff]
    intro q hq
    obtain ⟨c, _, hc⟩ := List.mem_map.mp hq
    subst hc
    have : r ≠ rf := hne r (List.mem_cons_self r rs)
    simp [this]

lemma rangeMap_filter_last (pid : Json) (z : Int) (cf rf : Nat) :
    (((List.range (cf + 1)).map fun c => (⟨pid, z, c, rf⟩ : TileReq)).filter
      (fun q => q.x == cf && q.y == rf)).length = 1 := by
  rw [List.range_succ, List.map_append, List.filter_append]
  have h1 : (((List.range cf).map fun c => (⟨pid, z, c, rf⟩ : TileReq)).filter
      (fun q => q.x == cf && q.y == rf)) = [] := by
    rw [List.filter_eq_nil_iff]
    intro q hq
    obtain ⟨c, hcr, hc⟩ := List.mem_map.mp hq
    subst hc
    have : c < cf := List.mem_range.mp hcr
    have : c ≠ cf := Nat.ne_of_lt this
    simp [this]
  rw [h1]
  simp

/-! ### C6: request count, order and parameters -/

/-- C6: on a session with resolved metadata, when every tile response
succeeds, `download` issues exactly `num_rows × num_columns` tile
requests in row-major order (row outer, column inner), each carrying
the session's `pano_id` and `zoom_factor` with `x` equal to the
0-indexed column and `y` equal to the 0-indexed row — and issues no
further metadata requests. -/
theorem c6_request_pattern (env : Env) (sv : StreetView) (md pid : Json) (nrI ncI : Int)
    (hm : sv._metadata = some md) (hd : md.isDict = true)
    (hp : pano_id_pure md = .ok pid)
    (hnr : num_rows_pure md sv.zoom_factor = .ok nrI)
    (hnc : num_columns_pure md sv.zoom_factor = .ok ncI)
    (ht : ∀ r ∈ List.range nrI.toNat, ∀ c ∈ List.range ncI.toNat,
      (env.tileResp c r).isOk = true)
    (n : Nat) :
    (sv.download env n).1.trace
      = rowMajorTrace pid sv.zoom_factor ncI.toNat (List.range nrI.toNat) ∧
    (sv.download env n).1.trace.length = nrI.toNat * ncI.toNat ∧
    (sv.download env n).1.n = n := by
  obtain ⟨image2, cur2, hrows⟩ :=
    downloadRows_ok env sv md pid ncI hm hd hp hnc (List.range nrI.toNat) n [] none none ht
  have htrace :
      (sv.download env n).1
        = ⟨sv, n, rowMajorTrace pid sv.zoom_factor ncI.toNat (List.range nrI.toNat)⟩ := by
    simp only [StreetView.download, num_rowsProp_resolved env n sv md hm hd, hnr,
      num_columnsProp_resolved env n sv md hm hd, hnc, hrows, List.nil_append]
    rcases image2 with _ | im2 <;> rcases cur2 with _ | c2 <;> rfl
  rw [htrace]
  exact ⟨rfl, by rw [rowMajorTrace_length, List.length_range], rfl⟩

/-- A 512 × 512 black tile: the stub tile of the witness scenarios. -/
def tile512 : PILImage := ⟨512, 512, fun _ _ => rgbBlack⟩

/-- Synthetic metadata for a minimal 1 × 1 tile grid at zoom 4:
a 600 × 600 panorama gives a 300 × 300 output, so one row and one
column. -/
def mdSmall : Json :=
  .dict [("Data", .dict [("image_width", .num 600), ("image_height", .num 600)]),
         ("Links", .arr [.dict [("panoId", .str "P")]])]

/-- A session whose metadata cache already holds `mdSmall` (zoom 4). -/
def svSmall : StreetView := ⟨40, -75, 4, 0, 0, some mdSmall, none⟩

/-- An environment whose every tile request succeeds with the stub
tile (metadata requests all fail, proving no further metadata request
is consulted on a resolved session). -/
def envTilesOk : Env := ⟨fun _ => .error .networkError, fun _ _ => .ok tile512⟩

/-- C6 witness: the 1 × 1 grid session downloads with exactly one tile
request, `(panoid = "P", zoom = 4, x = 0, y = 0)`, and no metadata
request. -/
theorem c6_request_pattern_witness :
    (svSmall.download envTilesOk 0).1.trace = [⟨.str "P", 4, 0, 0⟩] ∧
    (svSmall.download envTilesOk 0).1.trace.length = 1 ∧
    (svSmall.download envTilesOk 0).1.n = 0 := by
  obtain ⟨h1, h2, h3⟩ :=
    c6_request_pattern envTilesOk svSmall mdSmall (.str "P") 1 1 rfl rfl rfl rfl rfl
      (fun r _ c _ => rfl) 0
  refine ⟨?_, h2, h3⟩
  rw [h1]
  rfl

/-! ### C5: any tile failure aborts the download with nothing written -/

/-- C5: on a session with resolved metadata, if the tile at 0-indexed
position `(row rf, column cf)` of the grid is the first whose fetch
fails (every tile of every earlier row succeeds, as does every earlier
column of row `rf`), then `download` raises: the result is an error —
in the model a non-`ok` result means `IMAGE.save` was never reached, so
no file, partial or otherwise, was written.  The issued requests are
exactly the row-major prefix of the grid up to and including the failed
request, so nothing is requested after the failure, and the failing
tile was requested exactly once — no retry. -/
theorem c5_failure_aborts (env : Env) (sv : StreetView) (md pid : Json) (nrI ncI : Int)
    (hm : sv._metadata = some md) (hd : md.isDict = true)
    (hp : pano_id_pure md = .ok pid)
    (hnr : num_rows_pure md sv.zoom_factor = .ok nrI)
    (hnc : num_columns_pure md sv.zoom_factor = .ok ncI)
    (rf cf : Nat) (hrf : rf < nrI.toNat) (hcf : cf < ncI.toNat)
    (hpre : ∀ r < rf, ∀ c < ncI.toNat, (env.tileResp c r).isOk = true)
    (hrow : ∀ c < cf, (env.tileResp c rf).isOk = true)
    (hfail : (env.tileResp cf rf).isOk = false)
    (n : Nat) :
    ∃ e, (sv.download env n).2 = .error e ∧
      (sv.download env n).1.trace
        = rowMajorTrace pid sv.zoom_factor ncI.toNat (List.range rf)
          ++ (List.range (cf + 1)).map (fun c => ⟨pid, sv.zoom_factor, c, rf⟩) ∧
      ((sv.download env n).1.trace.filter
        (fun q => q.x == cf && q.y == rf)).length = 1 := by
  obtain ⟨restRows, hrsplit⟩ := range_split nrI.toNat rf hrf
  obtain ⟨restCols, hcsplit⟩ := range_split ncI.toNat cf hcf
  obtain ⟨e, herr⟩ :=
    downloadRows_err env sv md pid ncI hm hd hp hnc (List.range rf) rf restRows n []
      none none cf (List.range cf) restCols hcsplit
      (fun r hr c hc => hpre r (List.mem_range.mp hr) c (List.mem_range.mp hc))
      (fun c hc => hrow c (List.mem_range.mp hc))
      hfail
  have hdl : sv.download env n
      = (⟨sv, n, rowMajorTrace pid sv.zoom_factor ncI.toNat (List.range rf)
          ++ (List.range cf ++ [cf]).map fun c => ⟨pid, sv.zoom_factor, c, rf⟩⟩,
          .error e) := by
    simp only [StreetView.download, num_rowsProp_resolved env n sv md hm hd, hnr,
      num_columnsProp_resolved env n sv md hm hd, hnc]
    rw [hrsplit]
    simp only [herr, List.nil_append]
  refine ⟨e, ?_, ?_, ?_⟩
  · rw [hdl]
  · rw [hdl]
    simp only [← List.range_succ]
  · rw [hdl]
    simp only [List.filter_append]
    rw [rowMajorTrace_filter_ne pid sv.zoom_factor ncI.toNat cf rf (List.range rf)
      (fun r hr => Nat.ne_of_lt (List.mem_range.mp hr))]
    rw [← List.range_succ]
    simp only [List.nil_append]
    exact rangeMap_filter_last pid sv.zoom_factor cf rf

/-- An environment whose single tile request fails to decode while
metadata requests also fail: the failing-tile witness scenario. -/
def envTileFail : Env := ⟨fun _ => .error .networkError, fun _ _ => .error .imageError⟩

/-- C5 witness: on the 1 × 1 grid session whose only tile fetch fails,
`download` returns an error (no file written), having issued exactly
that one request and not retried it. -/
theorem c5_failure_aborts_witness :
    (svSmall.download envTileFail 0).2.isOk = false ∧
    (svSmall.download envTileFail 0).1.trace
      = [⟨.str "P", (4 : Int), 0, 0⟩] ∧
    ((svSmall.download envTileFail 0).1.trace.filter
      (fun q => q.x == 0 && q.y == 0)).length = 1 := by
  obtain ⟨e, h1, h2, h3⟩ :=
    c5_failure_aborts envTileFail svSmall mdSmall (.str "P") 1 1 rfl rfl rfl rfl rfl
      0 0 (by decide) (by decide)
      (fun r hr c _ => absurd hr (Nat.not_lt_zero r))
      (fun c hc => absurd hc (Nat.not_lt_zero c))
      rfl 0
  refine ⟨by rw [h1]; rfl, ?_, h3⟩
  rw [h2]
  rfl

/-! ### C2: dimensions of the saved composite -/

/-- Synthetic metadata for a 1-column, 2-row grid at zoom 1: an
8192 × 16384 panorama gives a 512 × 1024 output, so `num_columns = 1`
and `num_rows = 2`. -/
def mdTwoRows : Json :=
  .dict [("Data", .dict [("image_width", .num 8192), ("image_height", .num 16384)]),
         ("Links", .arr [.dict [("panoId", .str "Q")]])]

/-- A session whose metadata cache already holds `mdTwoRows`
(zoom 1). -/
def svTwoRows : StreetView := ⟨40, -75, 1, 0, 0, some mdTwoRows, none⟩

/-- C2 evaluation at the failing input: a 2 × 1 grid of uniform
512 × 512 tiles, all fetched successfully, must per the claim assemble
into a `num_columns × tile_width = 512` by `num_rows × tile_height =
1024` composite.  The code fetches both tiles (the trace has length 2)
but merges a finished row into `IMAGE` only at the top of the *next*
row iteration, and the trailing `if IMAGE == None` rescues only the
single-row case — so the last row is dropped and the saved composite is
512 × 512, not 512 × 1024. -/
theorem c2_composite_dimensions_bug :
    resultDims (svTwoRows.download envTilesOk 0) = some (512, 512) ∧
    resultDims (svTwoRows.download envTilesOk 0) ≠ some (512, 1024) ∧
    (svTwoRows.download envTilesOk 0).1.trace.length = 2 := by
  refine ⟨rfl, ?_, rfl⟩
  intro h
  rw [show resultDims (svTwoRows.download envTilesOk 0) = some (512, 512) from rfl] at h
  simp at h

/-! ### C8: metadata memoization -/

/-- A freshly constructed session (`StreetView(40, -75, zoom_factor=4)`):
both caches empty. -/
def svFresh : StreetView := ⟨40, -75, 4, 0, 0, none, none⟩

/-- An environment whose metadata endpoint always answers with the JSON
array `[]` — a body that parses but is not a dict. -/
def envArr : Env := ⟨fun _ => .ok (.arr []), fun _ _ => .error .networkError⟩

/-- C8 counterexample: the claim says the metadata request is issued at
most once per session no matter how many times the derived accessors
are read.  The memoization guard is `isinstance(self._metadata, dict)`,
so when the response body parses to a non-dict (here the JSON array
`[]`, stored into `_metadata` and failing the guard on the next
access), every accessor read re-issues the request: two reads of
`pano_id` on a fresh session issue two metadata requests. -/
theorem c8_memoization_counterexample :
    (runAccessors envArr [.pano_id, .pano_id] svFresh 0).2.2 = 2 ∧
    ¬ ((runAccessors envArr [.pano_id, .pano_id] svFresh 0).2.2 ≤ 1) := by
  refine ⟨rfl, ?_⟩
  decide

/-- `metaUrlProp` changes no field except `_meta_url`. -/
lemma metaUrlProp_zoom (sv : StreetView) :
    (sv.metaUrlProp).2.zoom_factor = sv.zoom_factor := by
  unfold StreetView.metaUrlProp
  cases sv._meta_url <;> rfl

/-- The session state after the first (successful) metadata fetch of a
fresh session: the URL cache is populated and the parse result is
stored. -/
def svAfterFetch (sv : StreetView) (md : Json) : StreetView :=
  { (sv.metaUrlProp).2 with _metadata := some md }

lemma svAfterFetch_metadata (sv : StreetView) (md : Json) :
    (svAfterFetch sv md)._metadata = some md := rfl

lemma svAfterFetch_zoom (sv : StreetView) (md : Json) :
    (svAfterFetch sv md).zoom_factor = sv.zoom_factor := metaUrlProp_zoom sv

lemma readAccessor_fresh (env : Env) (a : Accessor) (n : Nat) (sv : StreetView) (md : Json)
    (hm : sv._metadata = none) (he : env.metaResp n = .ok md) :
    readAccessor env a n sv = (accessorPure a md sv.zoom_factor, svAfterFetch sv md, n + 1) := by
  simp only [readAccessor, StreetView.metadataProp, hm, StreetView.metaFetch, he,
    svAfterFetch, Except.bind]
  rw [metaUrlProp_zoom]

lemma readAccessor_resolved (env : Env) (a : Accessor) (n : Nat) (sv : StreetView) (md : Json)
    (hm : sv._metadata = some md) (hd : md.isDict = true) :
    readAccessor env a n sv = (accessorPure a md sv.zoom_factor, sv, n) := by
  simp [readAccessor, metadataProp_resolved env n sv md hm hd, Except.bind]

lemma runAccessors_resolved (env : Env) (sv : StreetView) (md : Json)
    (hm : sv._metadata = some md) (hd : md.isDict = true) :
    ∀ (acs : List Accessor) (n : Nat),
      runAccessors env acs sv n = (acs.map fun a => accessorPure a md sv.zoom_factor, sv, n) := by
  intro acs
  induction acs with
  | nil => intro n; rfl
  | cons a rest ih =>
    intro n
    simp only [runAccessors, readAccessor_resolved env a n sv md hm hd, ih n, List.map_cons]

/-- C8 (amended): provided the metadata endpoint answers with a JSON
dict (as the external interface specifies), a fresh session issues at
most one metadata request over any sequence of accessor reads — zero
for the empty sequence, exactly one otherwise — and every read returns
the pure function of the fetched dict and the session's `zoom_factor`
given by its accessor body: in particular every re-read of the same
accessor returns the same value. -/
theorem c8_memoization_amended (env : Env) (sv : StreetView) (md : Json)
    (acs : List Accessor)
    (hm : sv._metadata = none)
    (he : env.metaResp 0 = .ok md) (hd : md.isDict = true) :
    (runAccessors env acs sv 0).1 = acs.map (fun a => accessorPure a md sv.zoom_factor) ∧
    (runAccessors env acs sv 0).2.2 ≤ 1 := by
  cases acs with
  | nil =>
    constructor
    · rfl
    · simp [runAccessors]
  | cons a rest =>
    have hres := runAccessors_resolved env (svAfterFetch sv md) md
      (svAfterFetch_metadata sv md) hd rest 1
    rw [svAfterFetch_zoom] at hres
    simp only [runAccessors, readAccessor_fresh env a 0 sv md hm he, hres, List.map_cons]
    simp

/-- An environment whose metadata endpoint always answers with the
dict `mdSmall`. -/
def envDictMeta : Env := ⟨fun _ => .ok mdSmall, fun _ _ => .error .networkError⟩

/-- C8 (amended) witness: three reads (`pano_id`, `num_rows`,
`pano_id` again) on a fresh session against a dict-answering endpoint
issue at most one request and return the expected values, the repeated
`pano_id` read returning the same value both times. -/
theorem c8_memoization_amended_witness :
    (runAccessors envDictMeta [.pano_id, .num_rows, .pano_id] svFresh 0).2.2 ≤ 1 ∧
    (runAccessors envDictMeta [.pano_id, .num_rows, .pano_id] svFresh 0).1
      = [.ok (.json (.str "P")), .ok (.int 1), .ok (.json (.str "P"))] := by
  obtain ⟨hv, hn⟩ :=
    c8_memoization_amended envDictMeta svFresh mdSmall [.pano_id, .num_rows, .pano_id]
      rfl rfl rfl
  refine ⟨hn, ?_⟩
  rw [hv]
  rfl

/-! ### C10: construction effects and the session frame -/

/-- An environment answering the first metadata request with the JSON
array `[]` and every later one with the JSON number `5`: two non-dict
bodies that can be told apart in the cache. -/
def envVarying : Env :=
  ⟨fun k => if k = 0 then .ok (.arr []) else .ok (.num 5),
   fun _ _ => .error .networkError⟩

/-- C10 counterexample: the claim says the memoized `_metadata` cache
is written once, on first use.  Against an endpoint whose bodies parse
to non-dicts, the cache is rewritten by every access: after one
`pano_id` read it holds the array `[]`, after a second read it holds
the number `5` — written twice, with different values. -/
theorem c10_frame_counterexample :
    (runAccessors envVarying [.pano_id] svFresh 0).2.1._metadata = some (.arr []) ∧
    (runAccessors envVarying [.pano_id, .pano_id] svFresh 0).2.1._metadata = some (.num 5) :=
  ⟨rfl, rfl⟩

/-- The frame an accessor or download step preserves: the coordinate
and zoom fields and the unused `_num_rows` / `_num_columns` fields are
untouched, and the `_meta_url` cache, once set, keeps its value and is
only ever set to the session's fixed metadata URL string. -/
def FramePreserved (sv sv' : StreetView) : Prop :=
  sv'.latitude = sv.latitude ∧ sv'.longitude = sv.longitude ∧
  sv'.zoom_factor = sv.zoom_factor ∧
  sv'._num_rows = sv._num_rows ∧ sv'._num_columns = sv._num_columns ∧
  (∀ s, sv._meta_url = some s → sv'._meta_url = some s) ∧
  (sv'._meta_url = sv._meta_url ∨
    sv'._meta_url = some (metaUrlString sv.latitude sv.longitude))

lemma frame_refl (sv : StreetView) : FramePreserved sv sv :=
  ⟨rfl, rfl, rfl, rfl, rfl, fun _ h => h, Or.inl rfl⟩

lemma frame_trans {sv1 sv2 sv3 : StreetView}
    (h12 : FramePreserved sv1 sv2) (h23 : FramePreserved sv2 sv3) :
    FramePreserved sv1 sv3 := by
  obtain ⟨a1, b1, c1, d1, e1, f1, g1⟩ := h12
  obtain ⟨a2, b2, c2, d2, e2, f2, g2⟩ := h23
  refine ⟨a2.trans a1, b2.trans b1, c2.trans c1, d2.trans d1, e2.trans e1,
    fun s hs => f2 s (f1 s hs), ?_⟩
  rcases g2 with g2 | g2
  · rw [g2]; exact g1
  · rw [g2, a1, b1]; exact Or.inr rfl

lemma metaUrlProp_frame (sv : StreetView) : FramePreserved sv (sv.metaUrlProp).2 := by
  unfold StreetView.metaUrlProp FramePreserved
  cases h : sv._meta_url with
  | some s => exact ⟨rfl, rfl, rfl, rfl, rfl, fun t ht => h.trans ht, Or.inl h⟩
  | none =>
    refine ⟨rfl, rfl, rfl, rfl, rfl, ?_, Or.inr rfl⟩
    intro t ht
    exact nomatch ht

lemma metaFetch_frame (env : Env) (n : Nat) (sv : StreetView) :
    FramePreserved sv ((sv.metaFetch env n).2.1) := by
  unfold StreetView.metaFetch
  have h := metaUrlProp_frame sv
  cases env.metaResp n with
  | ok j =>
    obtain ⟨a, b, c, d, e, f, g⟩ := h
    exact ⟨a, b, c, d, e, f, g⟩
  | error e => exact h

lemma metadataProp_frame (env : Env) (n : Nat) (sv : StreetView) :
    FramePreserved sv ((sv.metadataProp env n).2.1) := by
  unfold StreetView.metadataProp
  cases sv._metadata with
  | some m =>
    by_cases hd : m.isDict
    · simp only [hd, if_true]
      exact frame_refl sv
    · simp only [hd]
      simp only [Bool.false_eq_true, if_false]
      exact metaFetch_frame env n sv
  | none => exact metaFetch_frame env n sv

lemma readAccessor_frame (env : Env) (a : Accessor) (n : Nat) (sv : StreetView) :
    FramePreserved sv ((readAccessor env a n sv).2.1) :=
  metadataProp_frame env n sv

lemma pano_idProp_frame (env : Env) (n : Nat) (sv : StreetView) :
    FramePreserved sv ((sv.pano_idProp env n).2.1) :=
  metadataProp_frame env n sv

lemma num_rowsProp_frame (env : Env) (n : Nat) (sv : StreetView) :
    FramePreserved sv ((sv.num_rowsProp env n).2.1) :=
  metadataProp_frame env n sv

lemma num_columnsProp_frame (env : Env) (n : Nat) (sv : StreetView) :
    FramePreserved sv ((sv.num_columnsProp env n).2.1) :=
  metadataProp_frame env n sv

lemma downloadCols_frame (env : Env) (r : Nat) :
    ∀ (cols : List Nat) (st : DLState) (cur : Option PILImage),
      FramePreserved st.sv ((downloadCols env r cols st cur).1.sv) := by
  intro cols
  induction cols with
  | nil => intro st cur; exact frame_refl st.sv
  | cons c cs ih =>
    intro st cur
    simp only [downloadCols]
    have hp := pano_idProp_frame env st.n st.sv
    cases hpp : (st.sv.pano_idProp env st.n).1 with
    | error e => exact hp
    | ok pid =>
      cases ht : env.tileResp c r with
      | error e => exact hp
      | ok img => exact frame_trans hp (ih _ _)

lemma downloadRows_frame (env : Env) :
    ∀ (rows : List Nat) (st : DLState) (image cur : Option PILImage),
      FramePreserved st.sv ((downloadRows env rows st image cur).1.sv) := by
  intro rows
  induction rows with
  | nil => intro st image cur; exact frame_refl st.sv
  | cons r rs ih =>
    intro st image cur
    simp only [downloadRows]
    split
    next e heq1 => exact num_columnsProp_frame env st.n st.sv
    next nc heq1 =>
      split
      next st2 e heq =>
        have hc := downloadCols_frame env r (List.range nc.toNat)
          ⟨(st.sv.num_columnsProp env st.n).2.1, (st.sv.num_columnsProp env st.n).2.2, st.trace⟩
          none
        rw [heq] at hc
        exact frame_trans (num_columnsProp_frame env st.n st.sv) hc
      next st2 rowSlice heq =>
        have hc := downloadCols_frame env r (List.range nc.toNat)
          ⟨(st.sv.num_columnsProp env st.n).2.1, (st.sv.num_columnsProp env st.n).2.2, st.trace⟩
          none
        rw [heq] at hc
        exact frame_trans (num_columnsProp_frame env st.n st.sv)
          (frame_trans hc (ih st2 (mergeSlice image cur) rowSlice))

lemma download_frame (env : Env) (n : Nat) (sv : StreetView) :
    FramePreserved sv ((sv.download env n).1.sv) := by
  simp only [StreetView.download]
  split
  next e heq1 => exact num_rowsProp_frame env n sv
  next nr1 heq1 =>
    split
    next e heq2 =>
      exact frame_trans (num_rowsProp_frame env n sv)
        (num_columnsProp_frame env (sv.num_rowsProp env n).2.2 (sv.num_rowsProp env n).2.1)
    next nc1 heq2 =>
      have h123 := frame_trans (num_rowsProp_frame env n sv)
        (frame_trans
          (num_columnsProp_frame env (sv.num_rowsProp env n).2.2 (sv.num_rowsProp env n).2.1)
          (num_rowsProp_frame env
            ((sv.num_rowsProp env n).2.1.num_columnsProp env (sv.num_rowsProp env n).2.2).2.2
            ((sv.num_rowsProp env n).2.1.num_columnsProp env (sv.num_rowsProp env n).2.2).2.1))
      split
      next e heq3 => exact h123
      next nr heq3 =>
        have h4 := downloadRows_frame env (List.range nr.toNat)
          ⟨(((sv.num_rowsProp env n).2.1.num_columnsProp env
              (sv.num_rowsProp env n).2.2).2.1.num_rowsProp env
              ((sv.num_rowsProp env n).2.1.num_columnsProp env
                (sv.num_rowsProp env n).2.2).2.2).2.1,
            (((sv.num_rowsProp env n).2.1.num_columnsProp env
              (sv.num_rowsProp env n).2.2).2.1.num_rowsProp env
              ((sv.num_rowsProp env n).2.1.num_columnsProp env
                (sv.num_rowsProp env n).2.2).2.2).2.2, []⟩ none none
        have hall := frame_trans h123 h4
        split
        next st e heq4 =>
          rw [heq4] at hall
          exact hall
        next st image cur heq4 =>
          rw [heq4] at hall
          cases image with
          | some im => exact hall
          | none =>
            cases cur with
            | some im => exact hall
            | none => exact hall

/-- C10 (amended): construction issues no network request (the
metadata request happens only inside the `metadata` property), and no
accessor read or `download` run ever mutates `latitude`, `longitude`,
`zoom_factor` or the unused `_num_rows` / `_num_columns` fields — the
only fields that change are the `_metadata` and `_meta_url` caches.
`_meta_url`, once set, keeps its value forever and is only ever set to
the session's fixed metadata URL; `_metadata`, once it holds a dict,
is never rewritten (an accessor read on such a session changes nothing
at all), but — per the counterexample — it is rewritten on every
access while it holds a non-dict parse result. -/
theorem c10_construction_and_frame :
    (∀ (env : Env) (n : Nat) (lat lon z : Int), (StreetView.init env n lat lon z).2 = n) ∧
    (∀ (env : Env) (a : Accessor) (n : Nat) (sv : StreetView),
      FramePreserved sv ((readAccessor env a n sv).2.1)) ∧
    (∀ (env : Env) (n : Nat) (sv : StreetView),
      FramePreserved sv ((sv.download env n).1.sv)) ∧
    (∀ (env : Env) (a : Accessor) (n : Nat) (sv : StreetView) (md : Json),
      sv._metadata = some md → md.isDict = true →
      (readAccessor env a n sv).2.1 = sv ∧ (readAccessor env a n sv).2.2 = n) := by
  refine ⟨fun env n lat lon z => ?_, readAccessor_frame, download_frame,
    fun env a n sv md hm hd => ?_⟩
  · unfold StreetView.init
    split <;> rfl
  · rw [readAccessor_resolved env a n sv md hm hd]
    exact ⟨rfl, rfl⟩

/-- C10 (amended) witness: on concrete sessions, construction leaves
the request counter untouched, an accessor read against a dict-free
endpoint preserves the coordinate and zoom fields, a full `download`
preserves them too, and a read on a resolved session changes neither
the state nor the counter. -/
theorem c10_construction_and_frame_witness :
    (StreetView.init envNoNet 7 1 2 3).2 = 7 ∧
    (readAccessor envArr .pano_id 0 svFresh).2.1.latitude = 40 ∧
    (readAccessor envArr .pano_id 0 svFresh).2.1.zoom_factor = 4 ∧
    (svSmall.download envTilesOk 0).1.sv.zoom_factor = 4 ∧
    (readAccessor envDictMeta .num_rows 0 svSmall).2.1 = svSmall := by
  obtain ⟨h1, h2, h3, h4⟩ := c10_construction_and_frame
  obtain ⟨hlat, _, hzoom, _⟩ := h2 envArr .pano_id 0 svFresh
  obtain ⟨_, _, hdz, _⟩ := h3 envTilesOk 0 svSmall
  exact ⟨h1 envNoNet 7 1 2 3, hlat, hzoom, hdz,
    (h4 envDictMeta .num_rows 0 svSmall mdSmall rfl rfl).1⟩
